import Mathlib

/-!
Shallow embedding of three modules of the pulp content-management platform:

* `plugin/pulpcore/plugin/download/file.py` — `FileDownloader` (local-file
  streaming downloader);
* `src/pulp/server/content/plugins/data.py` — `Repository` and `Unit`
  data-transfer objects;
* `server/pulp/plugins/conduits/repo_sync.py` — `RepoSyncConduit`.

Python semantics are embedded as pure Lean functions: object attributes
become structure fields, attribute mutation becomes functional state
passing, raised exceptions become `Except`/`Option` error values, and the
current working directory used by `os.path.abspath` is an explicit
parameter.  Bytes are tracked by their counts (the claims under study never
inspect byte values, only chunk lengths and sizes).
-/

namespace Pulp

/-- Model of Python `str.startswith`, computed on the character lists. -/
def pyStartsWith (s p : String) : Bool :=
  p.toList.isPrefixOf s.toList

/-- Model of Python `str.endswith`, computed on the character lists. -/
def pyEndsWith (s p : String) : Bool :=
  p.toList.isSuffixOf s.toList

/-- Splits a character list at the first occurrence of `"://"`: returns the
characters before it and the characters after it, or `none` when the marker
does not occur. -/
def splitScheme : List Char → Option (List Char × List Char)
  | [] => none
  | ':' :: '/' :: '/' :: rest => some ([], rest)
  | c :: rest =>
    match splitScheme rest with
    | some (pre, post) => some (c :: pre, post)
    | none => none

/-- Model of `urllib.parse.urlparse` restricted to the two fields the
downloader reads (`netloc`, `path`) and to URLs of the shape
`scheme://netloc/path` without query or fragment — the documented input
domain of `FileDownloader` (`url` is expected to begin with `file://`).
The netloc is everything after `://` up to the first `/`; the path is the
rest (including the leading `/`). -/
def urlparse (url : String) : String × String :=
  match splitScheme url.toList with
  | some (_, rest) =>
    (⟨rest.takeWhile (fun c => c ≠ '/')⟩, ⟨rest.dropWhile (fun c => c ≠ '/')⟩)
  | none => ("", url)

/-- Model of `posixpath.join` on two arguments: an absolute second argument
discards the first; otherwise a `/` separator is inserted unless the first
argument is empty or already ends in `/`. -/
def pyJoin (a b : String) : String :=
  if pyStartsWith b "/" then b
  else if a = "" ∨ pyEndsWith a "/" then a ++ b
  else a ++ "/" ++ b

/-- Model of Python `str.split` with separator `/`, on character lists. -/
def splitSlash (cs : List Char) : List (List Char) :=
  cs.foldr
    (fun c acc =>
      if c = '/' then [] :: acc
      else
        match acc with
        | h :: t => (c :: h) :: t
        | [] => [[c]])
    [[]]

/-- One step of `posixpath.normpath`'s component loop: empty and `.`
components are dropped, `..` pops the previous component except at the root
or after an unresolvable `..`. -/
def normStep (isAbs : Bool) (acc : List (List Char)) (comp : List Char) :
    List (List Char) :=
  if comp = [] ∨ comp = ['.'] then acc
  else if comp ≠ ['.', '.'] ∨ (isAbs = false ∧ acc = []) ∨
      acc.getLast? = some ['.', '.'] then acc ++ [comp]
  else acc.dropLast

/-- Model of `posixpath.normpath` on a character list: collapses repeated
separators, resolves `.` and `..` components, preserves the POSIX special
case of exactly two leading slashes. -/
def normpathChars (cs : List Char) : List Char :=
  if cs = [] then ['.']
  else
    let isAbs : Bool :=
      match cs with
      | '/' :: _ => true
      | _ => false
    let slashes : List Char :=
      match cs with
      | '/' :: '/' :: '/' :: _ => ['/']
      | '/' :: '/' :: _ => ['/', '/']
      | '/' :: _ => ['/']
      | _ => []
    let comps := splitSlash cs
    let newComps := comps.foldl (normStep isAbs) []
    let res := slashes ++ List.intercalate ['/'] newComps
    if res = [] then ['.'] else res

/-- Model of `posixpath.normpath` on strings. -/
def normpath (p : String) : String :=
  ⟨normpathChars p.toList⟩

/-- Model of `os.path.abspath` with the process working directory as an
explicit parameter: a relative path is joined onto `cwd`, then the result is
normalised. -/
def abspath (cwd p : String) : String :=
  if pyStartsWith p "/" then normpath p else normpath (pyJoin cwd p)

/-- Python exceptions relevant to the downloader, as a value type.
`contextual` models the `ContextualError` of the spec: an error annotated
with the source URL by the `attach_url_to_exception` boundary decorator. -/
inductive PyError where
  | notFound (path : String)
  | permission (path : String)
  | contextual (url : String) (inner : PyError)
deriving DecidableEq, Repr

/-- Model of `pulpcore.plugin.download.DownloadResult` restricted to the
fields the claims observe: the storage `path`, the source `url`, the
reported `size` (the size entry of `artifact_attributes`; the digests are
not inspected by any claim) and the `exception` field. -/
structure DownloadResult where
  path : String
  url : String
  size : Nat
  exception : Option PyError
deriving DecidableEq, Repr

/-- Model of `FileDownloader`: the constructor stores the `url` and the
path resolved from it; `run` only ever consults these stored fields. -/
structure FileDownloader where
  url : String
  _path : String
deriving DecidableEq, Repr

/-- Model of `FileDownloader.__init__`: `p = urlparse(url)` and
`self._path = os.path.abspath(os.path.join(p.netloc, p.path))`, with the
working directory `cwd` of `abspath` made explicit. -/
def FileDownloader.init (url cwd : String) : FileDownloader :=
  let p := urlparse url
  { url := url, _path := abspath cwd (pyJoin p.1 p.2) }

/-- The chunk size requested by every read in `FileDownloader.run`. -/
def chunkSize : Nat := 1048576

/-- Observable events of one execution of the read loop of
`FileDownloader.run`: a `read` records the requested byte count and the
number of bytes the file returned; a `data` records a call to
`self.handle_data(chunk)` with the chunk's length; `finalize` records the
call to `self.finalize()`. -/
inductive Event where
  | read (requested : Nat) (returned : Nat)
  | data (len : Nat)
  | finalize
deriving DecidableEq, Repr

/-- The read loop of `FileDownloader.run` on a regular file with
`remaining` unread bytes: each iteration requests `chunkSize` bytes and the
file returns `min chunkSize remaining`; an empty read triggers
`finalize()` and ends the loop.  `fuel` is a structural-recursion bound;
every call from `runEvents` supplies enough of it. -/
def runEventsAux : Nat → Nat → List Event
  | 0, _ => []
  | f + 1, remaining =>
    if remaining = 0 then [Event.read chunkSize 0, Event.finalize]
    else
      let c := min chunkSize remaining
      Event.read chunkSize c :: Event.data c :: runEventsAux f (remaining - c)

/-- Event trace of the read loop of `FileDownloader.run` over a file of
`n` bytes.  Each non-final read consumes at least one byte, so a fuel of
`n + 1` always suffices. -/
def runEvents (n : Nat) : List Event :=
  runEventsAux (n + 1) n

/-- The byte counts returned by the `f_handle.read(1048576)` calls of a
trace, in order (one entry per read call performed, empty reads included). -/
def readResults (es : List Event) : List Nat :=
  es.filterMap fun e =>
    match e with
    | Event.read _ c => some c
    | _ => none

/-- The lengths of the chunks passed to `self.handle_data`, in order. -/
def dataSizes (es : List Event) : List Nat :=
  es.filterMap fun e =>
    match e with
    | Event.data l => some l
    | _ => none

/-- Modelled from the spec: the size accounting of `BaseDownloader`
(`pulpcore/plugin/download/base.py`, not part of this excerpt).  Per §4.1
the accumulator adds `len(chunk)` for every ingested chunk, so the size
finally reported for a file of `n` bytes is the sum of the chunk lengths
handled by the run. -/
def reportedSize (n : Nat) : Nat :=
  (dataSizes (runEvents n)).sum

/-- The body of `FileDownloader.run` before the decorator is applied.  The
filesystem is a map from paths to file sizes; `aiofiles.open` on an absent
path raises `FileNotFoundError` carrying that path, and on a present path
the loop reads the whole file and a `DownloadResult` is built with
`path=self._path`, `url=self.url` and `exception=None`. -/
def run_inner (d : FileDownloader) (fs : String → Option Nat) :
    Except PyError DownloadResult :=
  match fs d._path with
  | none => Except.error (PyError.notFound d._path)
  | some n =>
    Except.ok
      { path := d._path, url := d.url, size := reportedSize n,
        exception := none }

/-- Modelled from the spec: the `attach_url_to_exception` decorator of
`pulpcore/plugin/download/base.py` (not part of this excerpt).  Per §4.5 it
intercepts any exception raised inside `run()`, wraps it with the source
URL without altering its kind, and re-raises; a successful result passes
through unchanged. -/
def attach_url_to_exception (url : String)
    (r : Except PyError DownloadResult) : Except PyError DownloadResult :=
  match r with
  | Except.ok v => Except.ok v
  | Except.error e => Except.error (PyError.contextual url e)

/-- Model of `FileDownloader.run`: the decorated run body. -/
def FileDownloader.run (d : FileDownloader) (fs : String → Option Nat) :
    Except PyError DownloadResult :=
  attach_url_to_exception d.url (run_inner d fs)

/-- The database dict handed to `Repository.from_repo` (the four keys the
method reads). -/
structure RepoDict where
  id : String
  display_name : String
  description : String
  notes : String
deriving DecidableEq, Repr

/-- Model of the `Repository` transfer object of
`src/pulp/server/content/plugins/data.py`.  A Python instance attribute
that has not been assigned is modelled as `none`. -/
structure Repository where
  id : Option String := none
  display_name : Option String := none
  description : Option String := none
  notes : Option String := none
  working_dir : Option String := none
deriving DecidableEq, Repr

/-- Model of `Repository.from_repo`: it builds `r = Repository()`,
populates `r.id`, `r.display_name`, `r.description` and `r.notes` from the
dict, and then falls off the end of the function body without a `return`
statement — so in Python the call evaluates to `None`, modelled here as
`none`. -/
def Repository.from_repo (repo : RepoDict) : Option Repository :=
  let r : Repository :=
    { id := some repo.id, display_name := some repo.display_name,
      description := some repo.description, notes := some repo.notes }
  let _ := r
  none

/-- Model of the `Unit` transfer object of
`src/pulp/server/content/plugins/data.py`; `metadata` is the key/value
mapping describing the unit. -/
structure Unit where
  type : String
  metadata : List (String × String)
  id : Option String
  location : Option String
deriving DecidableEq, Repr

/-- Model of `Unit.init(self, type, metadata)`: stores the two arguments
and sets `id` and `location` to `None`. -/
def Unit.init (type : String) (metadata : List (String × String)) : Unit :=
  { type := type, metadata := metadata, id := none, location := none }

/-- Model of `ImporterConduitException` raised by the conduit: it carries
the original error it was constructed from (the code raises
`ImporterConduitException(e)`). -/
structure ImporterConduitException where
  cause : PyError
deriving DecidableEq, Repr

/-- Model of `pulp.plugins.model.SyncReport`.  The class itself is not part
of this excerpt; modelled from the spec and the conduit's use of it: the
constructor takes the success flag, the three counters and the two logs,
and `canceled_flag` starts out false (only `build_cancel_report` sets it). -/
structure SyncReport where
  success : Bool
  added_count : Nat
  updated_count : Nat
  removed_count : Nat
  summary : String
  details : String
  canceled_flag : Bool := false
deriving DecidableEq, Repr

/-- The mutable tracking counters of a `RepoSyncConduit` instance.  The
`_removed_count` is set to 0 in `RepoSyncConduit.__init__`; `_added_count`
and `_updated_count` live in `AddUnitMixin` (not part of this excerpt),
modelled from the spec as counters likewise starting at 0. -/
structure RepoSyncConduit where
  added_count : Nat
  updated_count : Nat
  removed_count : Nat
deriving DecidableEq, Repr

/-- The counter state established by `RepoSyncConduit.__init__`. -/
def RepoSyncConduit.init : RepoSyncConduit :=
  { added_count := 0, updated_count := 0, removed_count := 0 }

/-- Model of `RepoSyncConduit.remove_unit`.  The association manager's
behaviour on this call is the `mgr` argument: `none` means
`unassociate_unit_by_id` returned normally, `some e` means it raised `e`.
On success the removed counter is incremented; on failure the state is left
as it was and `ImporterConduitException(e)` is raised. -/
def RepoSyncConduit.remove_unit (st : RepoSyncConduit)
    (mgr : Option PyError) : Except ImporterConduitException RepoSyncConduit :=
  match mgr with
  | none => Except.ok { st with removed_count := st.removed_count + 1 }
  | some e => Except.error { cause := e }

/-- Model of `RepoSyncConduit.associate_existing`.  The content-query
manager's behaviour is `query` (`ok` with the unit ids, or `error` with the
exception it raised); the association manager's behaviour on those ids is
`assoc`.  The method has no `try` block: any exception propagates as it is,
and the counters are never touched. -/
def RepoSyncConduit.associate_existing (st : RepoSyncConduit)
    (query : Except PyError (List String))
    (assoc : List String → Option PyError) : Except PyError RepoSyncConduit :=
  match query with
  | Except.error e => Except.error e
  | Except.ok ids =>
    match assoc ids with
    | some e => Except.error e
    | none => Except.ok st

/-- Model of `RepoSyncConduit.build_success_report`:
`SyncReport(True, added, updated, removed, summary, details)`. -/
def RepoSyncConduit.build_success_report (st : RepoSyncConduit)
    (summary details : String) : SyncReport :=
  { success := true, added_count := st.added_count,
    updated_count := st.updated_count, removed_count := st.removed_count,
    summary := summary, details := details }

/-- Model of `RepoSyncConduit.build_failure_report`:
`SyncReport(False, added, updated, removed, summary, details)`. -/
def RepoSyncConduit.build_failure_report (st : RepoSyncConduit)
    (summary details : String) : SyncReport :=
  { success := false, added_count := st.added_count,
    updated_count := st.updated_count, removed_count := st.removed_count,
    summary := summary, details := details }

/-- Model of `RepoSyncConduit.build_cancel_report`: a failure-shaped
report on which `r.canceled_flag = True` is then set. -/
def RepoSyncConduit.build_cancel_report (st : RepoSyncConduit)
    (summary details : String) : SyncReport :=
  let r : SyncReport :=
    { success := false, added_count := st.added_count,
      updated_count := st.updated_count, removed_count := st.removed_count,
      summary := summary, details := details }
  { r with canceled_flag := true }

/-- A sequence of `remove_unit` calls on one conduit, each with the
association manager's behaviour for that call; a raised
`ImporterConduitException` leaves the conduit state unchanged (the caller
may catch it and continue). -/
def applyRemoves (st : RepoSyncConduit) (outcomes : List (Option PyError)) :
    RepoSyncConduit :=
  outcomes.foldl
    (fun s o =>
      match s.remove_unit o with
      | Except.ok s2 => s2
      | Except.error _ => s)
    st

/-- The number of `remove_unit` calls in a sequence on which the
association manager succeeded. -/
def succeededCount (outcomes : List (Option PyError)) : Nat :=
  (outcomes.filter fun o => o.isNone).length

theorem str_empty_append (s : String) : "" ++ s = s := rfl

theorem dataSizes_runEventsAux :
    ∀ (f r : Nat), r < f → (dataSizes (runEventsAux f r)).sum = r := by
  intro f
  induction f with
  | zero => intro r h; exact absurd h (Nat.not_lt_zero r)
  | succ f ih =>
    intro r h
    by_cases hr : r = 0
    · subst hr; simp [runEventsAux, dataSizes]
    · have hpos : 0 < r := Nat.pos_of_ne_zero hr
      have hcpos : 0 < min chunkSize r := by
        have : 0 < chunkSize := by decide
        exact Nat.lt_min.mpr ⟨this, hpos⟩
      have hle : min chunkSize r ≤ r := Nat.min_le_right _ _
      have hrec := ih (r - min chunkSize r) (by omega)
      simp only [runEventsAux, if_neg hr, dataSizes, List.filterMap_cons,
        List.sum_cons] at hrec ⊢
      omega

/-- The size entry finally reported equals the byte length of the file:
the sum of all ingested chunk lengths reproduces the file size. -/
theorem reportedSize_eq (n : Nat) : reportedSize n = n :=
  dataSizes_runEventsAux (n + 1) n (Nat.lt_succ_self n)

theorem read_requests_runEventsAux :
    ∀ (f r : Nat) (req ret : Nat),
      Event.read req ret ∈ runEventsAux f r → req = chunkSize := by
  intro f
  induction f with
  | zero => intro r req ret h; simp [runEventsAux] at h
  | succ f ih =>
    intro r req ret h
    by_cases hr : r = 0
    · subst hr
      simp only [runEventsAux, if_pos rfl] at h
      simp at h
      exact h.1
    · simp only [runEventsAux, if_neg hr, List.mem_cons] at h
      rcases h with h | h | h
      · injection h with h1 h2
      · simp at h
      · exact ih _ req ret h

theorem shape_runEventsAux :
    ∀ (f r : Nat), r < f →
      ∃ pre, runEventsAux f r = pre ++ [Event.read chunkSize 0, Event.finalize] ∧
        Event.finalize ∉ pre := by
  intro f
  induction f with
  | zero => intro r h; exact absurd h (Nat.not_lt_zero r)
  | succ f ih =>
    intro r h
    by_cases hr : r = 0
    · subst hr
      exact ⟨[], by simp [runEventsAux], by simp⟩
    · have hpos : 0 < r := Nat.pos_of_ne_zero hr
      have hcpos : 0 < min chunkSize r := by
        have : 0 < chunkSize := by decide
        exact Nat.lt_min.mpr ⟨this, hpos⟩
      obtain ⟨pre, hpre, hnf⟩ := ih (r - min chunkSize r) (by omega)
      refine ⟨Event.read chunkSize (min chunkSize r) ::
        Event.data (min chunkSize r) :: pre, ?_, ?_⟩
      · simp only [runEventsAux, if_neg hr, hpre, List.cons_append]
      · intro hmem
        simp only [List.mem_cons] at hmem
        rcases hmem with h | h | hmem
        · simp at h
        · simp at h
        · exact hnf hmem

theorem data_pos_runEventsAux :
    ∀ (f r : Nat) (l : Nat), Event.data l ∈ runEventsAux f r → 0 < l := by
  intro f
  induction f with
  | zero => intro r l h; simp [runEventsAux] at h
  | succ f ih =>
    intro r l h
    by_cases hr : r = 0
    · subst hr
      simp [runEventsAux] at h
    · have hpos : 0 < r := Nat.pos_of_ne_zero hr
      have hcpos : 0 < min chunkSize r := by
        have : 0 < chunkSize := by decide
        exact Nat.lt_min.mpr ⟨this, hpos⟩
      simp only [runEventsAux, if_neg hr, List.mem_cons] at h
      rcases h with h | h | h
      · exact absurd h (by simp)
      · cases h; exact hcpos
      · exact ih _ l h

theorem pyJoin_empty_left (s : String) : pyJoin "" s = s := by
  by_cases h : pyStartsWith s "/"
  · simp [pyJoin, h]
  · simp [pyJoin, h, str_empty_append]

theorem pyJoin_abs_right (a s : String) (h : pyStartsWith s "/" = true) :
    pyJoin a s = s := by
  simp [pyJoin, h]

/-- C1, counterexample.  At URL `file://host/tmp/foo` (non-empty netloc,
absolute path component) with working directory `/cwd`, the path the
constructor resolves is not the netloc concatenated with the path component
resolved to an absolute path: `os.path.join` discards the netloc because
the path component is absolute, while the concatenation would keep it. -/
theorem init_path_not_netloc_concat :
    ((FileDownloader.init "file://host/tmp/foo" "/cwd")._path =
      abspath "/cwd" ((urlparse "file://host/tmp/foo").1 ++
        (urlparse "file://host/tmp/foo").2)) = False :=
  eq_false (by decide)

/-- C1, amended.  `FileDownloader.__init__` resolves the path once, at
construction time, as `abspath(join(netloc, path))`.  When the netloc is
empty (the usual `file:///...` form) this equals the netloc concatenated
with the path component resolved to an absolute path, as the claim states;
when the path component is absolute the netloc is discarded by the join.
`run()` never re-resolves: any successful run reports exactly the stored
path. -/
theorem init_path_resolution (url cwd : String) :
    (FileDownloader.init url cwd)._path =
      abspath cwd (pyJoin (urlparse url).1 (urlparse url).2) ∧
    ((urlparse url).1 = "" →
      (FileDownloader.init url cwd)._path =
        abspath cwd ((urlparse url).1 ++ (urlparse url).2)) ∧
    (pyStartsWith (urlparse url).2 "/" = true →
      (FileDownloader.init url cwd)._path = abspath cwd (urlparse url).2) ∧
    (∀ fs r, (FileDownloader.init url cwd).run fs = Except.ok r →
      r.path = (FileDownloader.init url cwd)._path) := by
  have hpath : (FileDownloader.init url cwd)._path =
      abspath cwd (pyJoin (urlparse url).1 (urlparse url).2) := rfl
  refine ⟨hpath, ?_, ?_, ?_⟩
  · intro h
    rw [hpath, h, pyJoin_empty_left, str_empty_append]
  · intro h
    rw [hpath, pyJoin_abs_right _ _ h]
  · intro fs r hr
    cases hfs : fs (FileDownloader.init url cwd)._path with
    | none =>
      simp [FileDownloader.run, run_inner, attach_url_to_exception, hfs] at hr
    | some n =>
      simp [FileDownloader.run, run_inner, attach_url_to_exception, hfs] at hr
      rw [← hr]

/-- Witness for C1 (amended): at `file:///tmp/a` with working directory
`/c`, the netloc is empty and the resolved path equals the concatenation
form. -/
theorem init_path_resolution_witness :
    (urlparse "file:///tmp/a").1 = "" ∧
    (FileDownloader.init "file:///tmp/a" "/c")._path =
      abspath "/c" ((urlparse "file:///tmp/a").1 ++
        (urlparse "file:///tmp/a").2) :=
  ⟨by decide, (init_path_resolution "file:///tmp/a" "/c").2.1 (by decide)⟩

/-- C2, counterexample.  On a 2,500,000-byte file the run does not perform
exactly 3 reads: the loop only learns of exhaustion from a fourth read call
that returns no bytes. -/
theorem file_2500000_reads_counterexample :
    (readResults (runEvents 2500000) = [1048576, 1048576, 402848]) = False :=
  eq_false (by decide)

/-- C2, amended.  On a 2,500,000-byte file the run performs exactly 4 read
calls, the first three returning 1048576, 1048576 and 402848 bytes and the
fourth returning empty (signalling exhaustion); exactly the three non-empty
chunks are ingested and the final reported size is 2,500,000. -/
theorem file_2500000_read_trace :
    readResults (runEvents 2500000) = [1048576, 1048576, 402848, 0] ∧
    dataSizes (runEvents 2500000) = [1048576, 1048576, 402848] ∧
    reportedSize 2500000 = 2500000 := by
  exact ⟨by decide, by decide, reportedSize_eq 2500000⟩

/-- C3.  In every execution of the run loop (over a file of any size `n`):
every read call requests exactly `chunkSize = 1048576` bytes; the trace
ends with an empty read immediately followed by the single `finalize()`
call (so `finalize` happens exactly once, only after the source signals
exhaustion, and no chunk is handled after it); and every chunk passed to
`handle_data` is non-empty. -/
theorem run_loop_discipline (n : Nat) :
    (∀ req ret, Event.read req ret ∈ runEvents n → req = chunkSize) ∧
    (∃ pre, runEvents n = pre ++ [Event.read chunkSize 0, Event.finalize] ∧
      Event.finalize ∉ pre) ∧
    (∀ l, Event.data l ∈ runEvents n → 0 < l) :=
  ⟨fun req ret h => read_requests_runEventsAux (n + 1) n req ret h,
   shape_runEventsAux (n + 1) n (Nat.lt_succ_self n),
   fun l h => data_pos_runEventsAux (n + 1) n l h⟩

/-- Witness for C3: on a 5-byte file a 5-byte chunk is handled, and the
theorem yields its positivity. -/
theorem run_loop_discipline_witness :
    Event.data 5 ∈ runEvents 5 ∧ 0 < 5 :=
  ⟨by decide, (run_loop_discipline 5).2.2 5 (by decide)⟩

/-- C4.  `Repository.from_repo` never returns the instance it populates:
the method body assigns the four fields of the fresh `Repository` and then
falls off the end, so every call evaluates to `None`.  This contradicts its
own docstring ("Creates a new instance of this class from ...") and the
spec's intended contract.  (The equation holds definitionally for every
input dict; it is stated here at the concrete failing input
`{'id': 'r1', 'display_name': 'Repo 1', 'description': 'd', 'notes': 'n'}`.) -/
theorem from_repo_returns_none :
    Repository.from_repo
      { id := "r1", display_name := "Repo 1", description := "d",
        notes := "n" } = none := rfl

/-- C5.  A successful run on an existing readable file returns a
`DownloadResult` whose storage path is exactly the path resolved at
construction (the file is read in place — no other location appears),
whose `url` is the original URL, and whose `exception` is `None`; the
reported size is the file's size. -/
theorem run_success_result (d : FileDownloader) (fs : String → Option Nat)
    (n : Nat) (h : fs d._path = some n) :
    d.run fs = Except.ok
      { path := d._path, url := d.url, size := n, exception := none } := by
  simp [FileDownloader.run, run_inner, attach_url_to_exception, h,
    reportedSize_eq]

/-- Witness for C5: a concrete downloader over a filesystem holding a
7-byte file at every path. -/
theorem run_success_result_witness :
    (fun _ : String => some 7)
        (FileDownloader.init "file:///tmp/a" "/c")._path = some 7 ∧
    (FileDownloader.init "file:///tmp/a" "/c").run (fun _ => some 7) =
      Except.ok
        { path := (FileDownloader.init "file:///tmp/a" "/c")._path,
          url := "file:///tmp/a", size := 7, exception := none } :=
  ⟨rfl, run_success_result _ _ 7 rfl⟩

/-- C6.  Every error that escapes `run()` is wrapped by the
`attach_url_to_exception` boundary with the source URL: any error of the
inner body surfaces as `contextual url e` (never as the bare `e`), no
successful result is altered and no error is swallowed; in particular a
non-existent path surfaces as a `ContextualError` wrapping `NotFoundError`
annotated with the requested path. -/
theorem run_wraps_errors (d : FileDownloader) (fs : String → Option Nat) :
    (∀ e, run_inner d fs = Except.error e →
      d.run fs = Except.error (PyError.contextual d.url e)) ∧
    (∀ r, d.run fs = Except.ok r → run_inner d fs = Except.ok r) ∧
    (fs d._path = none →
      d.run fs = Except.error
        (PyError.contextual d.url (PyError.notFound d._path))) := by
  refine ⟨?_, ?_, ?_⟩
  · intro e h
    simp [FileDownloader.run, attach_url_to_exception, h]
  · intro r h
    cases hi : run_inner d fs with
    | ok v =>
      simp [FileDownloader.run, attach_url_to_exception, hi] at h
      rw [h]
    | error e =>
      simp [FileDownloader.run, attach_url_to_exception, hi] at h
  · intro h
    simp [FileDownloader.run, run_inner, attach_url_to_exception, h]

/-- Witness for C6: a downloader run against an empty filesystem raises
the wrapped not-found error carrying the requested path. -/
theorem run_wraps_errors_witness :
    (fun _ : String => (none : Option Nat))
        (FileDownloader.init "file:///missing/f" "/c")._path = none ∧
    (FileDownloader.init "file:///missing/f" "/c").run (fun _ => none) =
      Except.error (PyError.contextual "file:///missing/f"
        (PyError.notFound (FileDownloader.init "file:///missing/f" "/c")._path)) :=
  ⟨rfl, (run_wraps_errors (FileDownloader.init "file:///missing/f" "/c")
      (fun _ => none)).2.2 rfl⟩

/-- C7.  A `remove_unit` call on which the association manager succeeds
increments the conduit's removed counter by exactly one (all other state
unchanged); a call on which the manager raises `e` produces no new conduit
state — the counters stay as they were — and raises
`ImporterConduitException` carrying `e`. -/
theorem remove_unit_counter (st : RepoSyncConduit) :
    st.remove_unit none =
      Except.ok { st with removed_count := st.removed_count + 1 } ∧
    ∀ e, st.remove_unit (some e) = Except.error { cause := e } :=
  ⟨rfl, fun _ => rfl⟩

theorem applyRemoves_removed :
    ∀ (l : List (Option PyError)) (st : RepoSyncConduit),
      (applyRemoves st l).removed_count =
        st.removed_count + succeededCount l := by
  intro l
  induction l with
  | nil => intro st; simp [applyRemoves, succeededCount]
  | cons o t ih =>
    intro st
    cases o with
    | none =>
      have h1 : applyRemoves st (none :: t) =
          applyRemoves { st with removed_count := st.removed_count + 1 } t :=
        rfl
      rw [h1, ih]
      simp [succeededCount, List.filter_cons]
      omega
    | some e =>
      have h1 : applyRemoves st (some e :: t) = applyRemoves st t := rfl
      rw [h1, ih]
      simp [succeededCount, List.filter_cons]

/-- C8.  After any sequence of `remove_unit` calls on a fresh conduit, each
of the three report builders returns a `SyncReport` whose removed count is
the number of those calls that succeeded; the success report carries
`success = True`, the failure and cancel reports carry `success = False`,
and only the cancel report sets `canceled_flag`. -/
theorem reports_reflect_removed (outcomes : List (Option PyError))
    (summary details : String) :
    ((applyRemoves RepoSyncConduit.init outcomes).build_success_report
        summary details).removed_count = succeededCount outcomes ∧
    ((applyRemoves RepoSyncConduit.init outcomes).build_failure_report
        summary details).removed_count = succeededCount outcomes ∧
    ((applyRemoves RepoSyncConduit.init outcomes).build_cancel_report
        summary details).removed_count = succeededCount outcomes ∧
    ((applyRemoves RepoSyncConduit.init outcomes).build_success_report
        summary details).success = true ∧
    ((applyRemoves RepoSyncConduit.init outcomes).build_failure_report
        summary details).success = false ∧
    ((applyRemoves RepoSyncConduit.init outcomes).build_cancel_report
        summary details).success = false ∧
    ((applyRemoves RepoSyncConduit.init outcomes).build_success_report
        summary details).canceled_flag = false ∧
    ((applyRemoves RepoSyncConduit.init outcomes).build_failure_report
        summary details).canceled_flag = false ∧
    ((applyRemoves RepoSyncConduit.init outcomes).build_cancel_report
        summary details).canceled_flag = true := by
  have h : (applyRemoves RepoSyncConduit.init outcomes).removed_count =
      succeededCount outcomes := by
    have h0 := applyRemoves_removed outcomes RepoSyncConduit.init
    simpa [RepoSyncConduit.init] using h0
  exact ⟨h, h, h, rfl, rfl, rfl, rfl, rfl, rfl⟩

/-- C9.  `Unit.init(type, metadata)` stores the two arguments and leaves
`id` and `location` as `None`: the unit is not yet saved by the server. -/
theorem unit_init_fields (type : String) (metadata : List (String × String)) :
    (Unit.init type metadata).type = type ∧
    (Unit.init type metadata).metadata = metadata ∧
    (Unit.init type metadata).id = none ∧
    (Unit.init type metadata).location = none :=
  ⟨rfl, rfl, rfl, rfl⟩

/-- C10.  `associate_existing` never modifies the conduit's tracking
counters — any state it returns is exactly the input state — and any
exception raised by the content-query or association managers propagates
unchanged (the very error `e`, of type `PyError`, never translated into an
`ImporterConduitException`). -/
theorem associate_existing_frame (st : RepoSyncConduit)
    (query : Except PyError (List String))
    (assoc : List String → Option PyError) :
    (∀ st2, st.associate_existing query assoc = Except.ok st2 → st2 = st) ∧
    (∀ e, st.associate_existing query assoc = Except.error e →
      query = Except.error e ∨
        ∃ ids, query = Except.ok ids ∧ assoc ids = some e) := by
  refine ⟨?_, ?_⟩
  · intro st2 h
    cases query with
    | error e => simp [RepoSyncConduit.associate_existing] at h
    | ok ids =>
      cases ha : assoc ids with
      | none =>
        simp [RepoSyncConduit.associate_existing, ha] at h
        rw [h]
      | some e => simp [RepoSyncConduit.associate_existing, ha] at h
  · intro e h
    cases query with
    | error e2 =>
      simp [RepoSyncConduit.associate_existing] at h
      rw [h]
      exact Or.inl rfl
    | ok ids =>
      cases ha : assoc ids with
      | none => simp [RepoSyncConduit.associate_existing, ha] at h
      | some e2 =>
        simp [RepoSyncConduit.associate_existing, ha] at h
        exact Or.inr ⟨ids, rfl, by rw [ha, h]⟩

/-- Witness for C10: a successful call returns the unchanged initial
state, and a failing query propagates its own error. -/
theorem associate_existing_frame_witness :
    RepoSyncConduit.init = RepoSyncConduit.init ∧
    ((Except.error (PyError.notFound "/x") : Except PyError (List String)) =
        Except.error (PyError.notFound "/x") ∨
      ∃ ids, (Except.error (PyError.notFound "/x") :
          Except PyError (List String)) = Except.ok ids ∧
        (fun _ : List String => (none : Option PyError)) ids =
          some (PyError.notFound "/x")) :=
  ⟨(associate_existing_frame RepoSyncConduit.init (Except.ok [])
      (fun _ => none)).1 RepoSyncConduit.init rfl,
   (associate_existing_frame RepoSyncConduit.init
      (Except.error (PyError.notFound "/x")) (fun _ => none)).2
      (PyError.notFound "/x") rfl⟩

end Pulp
